import Mathlib

/-!
# Verification of the car registry client and image resolver

A shallow embedding of the core of tetratelabs/car: the OCI reference
parser (internal/reference/reference.go), the manifest/config JSON model
and layer assembly (internal/registry/json.go), platform selection and
validation (internal/registry/registry.go), the filesystem-layer reader
(internal/registry/registry.go ReadFilesystemLayer), the glob pattern
matcher (internal/patternmatcher/patternmatcher.go) and the List/Extract
driver (internal/car/car.go do).

Go strings are modelled as Lean String, Go int64 as Int, Go byte/rune
positions as indices into the character list (all strings involved are
ASCII). Go map[string]string values are modelled as association lists
with insert-or-replace update; reads of absent keys give the Go zero
value "". Functions that can panic (out-of-range slice indexing) return
Option, with none for the panic.
-/

namespace Car

/-- Go strings.Contains on character lists: true when pat occurs as a
contiguous substring of the list. -/
def charsContains (pat : List Char) : List Char → Bool
  | [] => pat.isEmpty
  | c :: cs => pat.isPrefixOf (c :: cs) || charsContains pat cs

/-- Go strings.Contains s pat. -/
def strContains (s pat : String) : Bool :=
  charsContains pat.toList s.toList

/-- Go strings.IndexByte: index of the first occurrence of c, or -1. -/
def firstIndex (s : List Char) (c : Char) : Int :=
  match s.findIdx? (fun x => x == c) with
  | some i => (i : Int)
  | none => -1

/-- Go strings.LastIndexByte: index of the last occurrence of c, or -1. -/
def lastIndex (s : List Char) (c : Char) : Int :=
  match s.reverse.findIdx? (fun x => x == c) with
  | some i => (s.length : Int) - 1 - i
  | none => -1

/-- internal/reference.Reference: an immutable (domain, path, tag) triple. -/
structure Reference where
  domain : String
  path : String
  tag : String
deriving Repr, DecidableEq

/-- internal/reference.Parse (reference.go lines 42-81), translated
byte-for-byte: empty input fails with "invalid reference format"; a
missing tag (no colon, or first slash after the last colon) fails with
"expected tagged reference"; no slash yields domain "docker.io" and path
"library/" ++ prefix; exactly one slash with no dot in the prefix yields
domain "docker.io"; otherwise the segment before the first slash is the
domain. -/
def parseReference (ref : String) : Except String Reference :=
  if ref = "" then .error "invalid reference format"
  else
    let chars := ref.toList
    let indexColon := lastIndex chars ':'
    let indexSlash := firstIndex chars '/'
    if indexColon = -1 ∨ indexSlash > indexColon then .error "expected tagged reference"
    else
      let tag := String.mk (chars.drop (indexColon.toNat + 1))
      let remaining := chars.take indexColon.toNat
      if indexSlash = -1 then
        .ok ⟨"docker.io", "library/" ++ String.mk remaining, tag⟩
      else if lastIndex chars '/' = indexSlash ∧ firstIndex remaining '.' = -1 then
        .ok ⟨"docker.io", String.mk remaining, tag⟩
      else
        .ok ⟨String.mk (remaining.take indexSlash.toNat),
             String.mk (remaining.drop (indexSlash.toNat + 1)), tag⟩

/-! ## Media types (internal/registry/json.go constants, mirrored in api) -/

def mediaTypeOCIImageLayer : String := "application/vnd.oci.image.layer.v1.tar+gzip"

def mediaTypeDockerImageLayer : String := "application/vnd.docker.image.rootfs.diff.tar.gzip"

def mediaTypeDockerImageForeignLayer : String :=
  "application/vnd.docker.image.rootfs.foreign.diff.tar.gzip"

def mediaTypeWasmImageLayer : String := "application/vnd.module.wasm.content.layer.v1+wasm"

def mediaTypeWasmImageConfig : String := "application/vnd.module.wasm.config.v1+json"

/-- json.go opencontainersImageTitle: the annotation key holding the filename. -/
def opencontainersImageTitle : String := "org.opencontainers.image.title"

/-! ## JSON model (internal/registry/json.go) -/

/-- json.go historyV1: one entry of the config's build history. -/
structure HistoryV1 where
  createdBy : String
  emptyLayer : Bool
deriving Repr, DecidableEq, Inhabited

/-- json.go descriptorV1: a manifest layer (or config) descriptor. The
annotations map[string]string is an association list with unique keys. -/
structure DescriptorV1 where
  mediaType : String
  digest : String
  size : Int
  annotations : List (String × String)
deriving Repr, DecidableEq, Inhabited

/-- json.go imageManifestV1: config descriptor plus ordered layers. -/
structure ImageManifestV1 where
  url : String
  config : DescriptorV1
  layers : List DescriptorV1
deriving Repr, DecidableEq, Inhabited

/-- json.go imageConfigV1: platform fields plus ordered history. -/
structure ImageConfigV1 where
  architecture : String
  os : String
  osVersion : String
  history : List HistoryV1
deriving Repr, DecidableEq, Inhabited

/-- json.go platformV1 inside an index entry. -/
structure PlatformV1 where
  architecture : String
  os : String
  osVersion : String
deriving Repr, DecidableEq, Inhabited

/-- json.go imageManifestReferenceV1: one entry of a multi-platform index. -/
structure ImageManifestReferenceV1 where
  mediaType : String
  digest : String
  platform : PlatformV1
deriving Repr, DecidableEq, Inhabited

/-- json.go imageIndexV1. -/
structure ImageIndexV1 where
  manifests : List ImageManifestReferenceV1
deriving Repr, DecidableEq, Inhabited

/-- internal.FilesystemLayer: the assembled layer handle. -/
structure FilesystemLayer where
  url : String
  mediaType : String
  size : Int
  createdBy : String
  fileName : String
deriving Repr, DecidableEq, Inhabited

/-- internal.Image. -/
structure Image where
  url : String
  platform : String
  filesystemLayers : List FilesystemLayer
deriving Repr, DecidableEq, Inhabited

/-- Go map[string]string read m[k]: the value for k, or the zero value ""
when k is absent. -/
def lookupD (m : List (String × String)) (k : String) : String :=
  match m.find? (fun kv => kv.1 == k) with
  | some kv => kv.2
  | none => ""

/-- Go map[string]string write m[k] = v on the association-list model:
replace in place, or append when k is new. -/
def insertKV : List (String × String) → String → String → List (String × String)
  | [], k, v => [(k, v)]
  | kv0 :: rest, k, v =>
    if kv0.1 == k then (k, v) :: rest else kv0 :: insertKV rest k v

/-- Go path.Join of two elements as used for platform strings
(path.Join(os, arch)): "" elements are dropped and the rest joined with
"/". path.Clean is the identity on the slash-free non-dot platform names
this program joins, so it is elided. -/
def pathJoin2 (a b : String) : String :=
  if a = "" then b else if b = "" then a else a ++ "/" ++ b

/-! ## Layer assembly (internal/registry/json.go filterLayers, newImage) -/

/-- json.go ignoredDockerDirectives: Dockerfile directives that never
produce a filesystem layer. -/
def ignoredDockerDirectives : List String :=
  ["ARG", "CMD", "ENTRYPOINT", "ENV", "EXPOSE", "HEALTHCHECK", "LABEL",
   "MAINTAINER", "ONBUILD", "SHELL", "STOPSIGNAL", "USER", "VOLUME", "WORKDIR"]

/-- json.go skipCreatedByPattern.MatchString s: the unanchored Go regexp
".* +(?:ARG|CMD|ENTRYPOINT|ENV|EXPOSE|HEALTHCHECK|LABEL|MAINTAINER|ONBUILD|SHELL|STOPSIGNAL|USER|VOLUME|WORKDIR) .*"
matches somewhere in s exactly when s contains " D " (a space, a directive
D of the list, a space) as a substring: the dot-stars match the empty
string around such an occurrence, and conversely any match of
".* +D .*" contains the three-part core " D ". -/
def skipCreatedByMatch (s : String) : Bool :=
  ignoredDockerDirectives.any fun d => strContains s (" " ++ d ++ " ")

/-- json.go newFilesystemLayer: build the layer handle from a descriptor;
the URL is fmt.Sprintf("%s/blobs/%s", baseURL, l.Digest) and the filename
comes from the org.opencontainers.image.title annotation. -/
def newFilesystemLayer (l : DescriptorV1) (baseURL createdBy : String) : FilesystemLayer :=
  { url := baseURL ++ "/blobs/" ++ l.digest
    mediaType := l.mediaType
    size := l.size
    createdBy := createdBy
    fileName := lookupD l.annotations opencontainersImageTitle }

/-- The history cursor of filterLayers: "for history[k].EmptyLayer { k++ }"
followed by "h := history[k]; k++". Skips leading emptyLayer entries and
yields the first non-empty entry with the remaining suffix; none models
the Go index-out-of-range panic when the cursor runs past the end. -/
def popNonEmpty : List HistoryV1 → Option (HistoryV1 × List HistoryV1)
  | [] => none
  | h :: t => if h.emptyLayer then popNonEmpty t else some (h, t)

/-- The loop of json.go filterLayers (lines 159-175): walk the manifest
layers, pair each with the next non-empty history entry, drop foreign
layers and layers whose created_by matches skipCreatedByPattern. none
models the history-index panic. -/
def filterLayersLoop (baseURL : String) :
    List DescriptorV1 → List HistoryV1 → Option (List FilesystemLayer)
  | [], _ => some []
  | l :: ls, hist =>
    match popNonEmpty hist with
    | none => none
    | some (h, rest) =>
      match filterLayersLoop baseURL ls rest with
      | none => none
      | some tail =>
        if l.mediaType == mediaTypeDockerImageForeignLayer then some tail
        else if skipCreatedByMatch h.createdBy then some tail
        else some (newFilesystemLayer l baseURL h.createdBy :: tail)

/-- json.go filterLayers (lines 151-177): back-fill an empty history with
one zero-valued entry per layer, then run the correlation loop. -/
def filterLayers (baseURL : String) (manifest : ImageManifestV1)
    (config : ImageConfigV1) : Option (List FilesystemLayer) :=
  let history :=
    if config.history.length = 0 then
      List.replicate manifest.layers.length { createdBy := "", emptyLayer := false }
    else config.history
  filterLayersLoop baseURL manifest.layers history

/-- json.go newImage (lines 146-149): assemble the Image; none when
filterLayers panics. -/
def newImage (baseURL : String) (manifest : ImageManifestV1)
    (config : ImageConfigV1) : Option Image :=
  (filterLayers baseURL manifest config).map fun layers =>
    { url := manifest.url
      platform := pathJoin2 config.os config.architecture
      filesystemLayers := layers }

/-- Specification-side view of the correlation (spec.md section 4.6 and
section 8 "Layer assembly"): the non-empty history entries in order. -/
def specNonEmptyHistory (history : List HistoryV1) : List HistoryV1 :=
  history.filter fun h => !h.emptyLayer

/-- Specification-side view of the assembled layers: pair the manifest
layers positionally with the non-empty history entries, keep the pairs
that are neither foreign-media nor ignored-directive, and build the
layer handles. Written from the spec sentence, to be compared with
filterLayers. -/
def specAssembledLayers (baseURL : String) (layers : List DescriptorV1)
    (history : List HistoryV1) : List FilesystemLayer :=
  ((layers.zip (specNonEmptyHistory history)).filter fun lh =>
      !(lh.1.mediaType == mediaTypeDockerImageForeignLayer) &&
        !skipCreatedByMatch lh.2.createdBy).map
    fun lh => newFilesystemLayer lh.1 baseURL lh.2.createdBy

/-! ## Lemmas about the history cursor and the assembly loop -/

/-- A failed cursor advance means no non-empty entry is left. -/
theorem popNonEmpty_none (hist : List HistoryV1) (hp : popNonEmpty hist = none) :
    specNonEmptyHistory hist = [] := by
  induction hist with
  | nil => rfl
  | cons h t ih =>
    by_cases he : h.emptyLayer = true
    · simp only [popNonEmpty, he, if_pos] at hp
      simp [specNonEmptyHistory, List.filter_cons, he]
      simpa [specNonEmptyHistory] using ih hp
    · simp [popNonEmpty, he] at hp

/-- A successful cursor advance yields the head of the non-empty entries,
and the remaining suffix carries exactly the rest of them. -/
theorem popNonEmpty_some (hist : List HistoryV1) (h : HistoryV1)
    (rest : List HistoryV1) (hp : popNonEmpty hist = some (h, rest)) :
    specNonEmptyHistory hist = h :: specNonEmptyHistory rest := by
  induction hist with
  | nil => simp [popNonEmpty] at hp
  | cons h0 t ih =>
    by_cases he : h0.emptyLayer = true
    · simp only [popNonEmpty, he, if_pos] at hp
      simpa [specNonEmptyHistory, List.filter_cons, he] using ih hp
    · simp only [popNonEmpty, he, if_neg, Option.some.injEq, Prod.mk.injEq] at hp
      obtain ⟨rfl, rfl⟩ := hp
      simp [specNonEmptyHistory, List.filter_cons, he]

/-- The assembly loop agrees with the spec-side zip/filter/map view
whenever the history holds at least one non-empty entry per layer. -/
theorem filterLayersLoop_correct (baseURL : String) (ls : List DescriptorV1) :
    ∀ hist : List HistoryV1, ls.length ≤ (specNonEmptyHistory hist).length →
      filterLayersLoop baseURL ls hist = some (specAssembledLayers baseURL ls hist) := by
  induction ls with
  | nil =>
    intro hist _
    simp [filterLayersLoop, specAssembledLayers, specNonEmptyHistory]
  | cons l ls ih =>
    intro hist hlen
    cases hp : popNonEmpty hist with
    | none =>
      exfalso
      rw [popNonEmpty_none hist hp] at hlen
      simp at hlen
    | some hr =>
      obtain ⟨h, rest⟩ := hr
      have hspec := popNonEmpty_some hist h rest hp
      have hlen2 : ls.length ≤ (specNonEmptyHistory rest).length := by
        rw [hspec] at hlen
        simpa using hlen
      simp only [filterLayersLoop, hp, ih rest hlen2, specAssembledLayers, hspec,
        List.zip_cons_cons, List.filter_cons]
      by_cases hf : (l.mediaType == mediaTypeDockerImageForeignLayer) = true
      · simp [hf]
      · by_cases hs : skipCreatedByMatch h.createdBy = true
        · simp [hf, hs]
        · simp [hf, hs]

/-- The zero-valued history entry synthesized by the back-fill. -/
def zeroHistory : HistoryV1 := { createdBy := "", emptyLayer := false }

/-- filterLayers agrees with the spec-side view when the config history
holds enough non-empty entries. -/
theorem filterLayers_correct_le (base : String) (manifest : ImageManifestV1)
    (config : ImageConfigV1)
    (hlen : manifest.layers.length ≤ (specNonEmptyHistory config.history).length) :
    filterLayers base manifest config =
      some (specAssembledLayers base manifest.layers config.history) := by
  by_cases hh : config.history.length = 0
  · have hnil : config.history = [] := List.length_eq_zero.mp hh
    have hl : manifest.layers = [] := by
      rw [hnil] at hlen
      simp only [specNonEmptyHistory, List.filter_nil, List.length_nil, Nat.le_zero] at hlen
      exact List.length_eq_zero.mp hlen
    simp [filterLayers, hh, hl, filterLayersLoop, specAssembledLayers]
  · simp only [filterLayers, if_neg hh]
    exact filterLayersLoop_correct base manifest.layers config.history hlen

/-- Synthesized entries are all non-empty. -/
theorem specNonEmptyHistory_replicate (n : Nat) :
    specNonEmptyHistory (List.replicate n zeroHistory) = List.replicate n zeroHistory := by
  induction n with
  | zero => rfl
  | succ n ih =>
    simp only [List.replicate_succ, specNonEmptyHistory, List.filter_cons] at *
    simp [zeroHistory, ih]

/-- With an empty config history, filterLayers runs on the synthesized
zero-valued history, one entry per layer. -/
theorem filterLayers_correct_nil (base : String) (manifest : ImageManifestV1)
    (config : ImageConfigV1) (hnil : config.history = []) :
    filterLayers base manifest config =
      some (specAssembledLayers base manifest.layers
        (List.replicate manifest.layers.length zeroHistory)) := by
  have hh : config.history.length = 0 := by rw [hnil]; rfl
  have hrep : manifest.layers.length ≤
      (specNonEmptyHistory (List.replicate manifest.layers.length zeroHistory)).length := by
    rw [specNonEmptyHistory_replicate]
    simp
  have := filterLayersLoop_correct base manifest.layers
    (List.replicate manifest.layers.length zeroHistory) hrep
  simpa [filterLayers, hh, zeroHistory] using this

/-- Every layer produced by the assembly loop has a non-foreign media
type: the loop drops foreign layers unconditionally. -/
theorem filterLayersLoop_no_foreign (baseURL : String) (ls : List DescriptorV1) :
    ∀ (hist : List HistoryV1) (out : List FilesystemLayer),
      filterLayersLoop baseURL ls hist = some out →
      ∀ fl ∈ out, fl.mediaType ≠ mediaTypeDockerImageForeignLayer := by
  induction ls with
  | nil =>
    intro hist out hout
    simp only [filterLayersLoop, Option.some.injEq] at hout
    subst hout
    intro fl hfl
    simp at hfl
  | cons l ls ih =>
    intro hist out hout
    simp only [filterLayersLoop] at hout
    cases hp : popNonEmpty hist with
    | none => rw [hp] at hout; simp at hout
    | some hr =>
      obtain ⟨h, rest⟩ := hr
      rw [hp] at hout
      dsimp only at hout
      cases hrec : filterLayersLoop baseURL ls rest with
      | none => rw [hrec] at hout; simp at hout
      | some tail =>
        rw [hrec] at hout
        dsimp only at hout
        by_cases hf : (l.mediaType == mediaTypeDockerImageForeignLayer) = true
        · rw [if_pos hf] at hout
          obtain rfl : tail = out := by simpa using hout
          exact ih rest _ hrec
        · rw [if_neg hf] at hout
          by_cases hs : skipCreatedByMatch h.createdBy = true
          · rw [if_pos hs] at hout
            obtain rfl : tail = out := by simpa using hout
            exact ih rest _ hrec
          · rw [if_neg hs] at hout
            obtain rfl : newFilesystemLayer l baseURL h.createdBy :: tail = out := by
              simpa using hout
            intro fl hfl
            rcases List.mem_cons.mp hfl with hfl | hfl
            · subst hfl
              simpa [newFilesystemLayer] using hf
            · exact ih rest tail hrec fl hfl

/-! ## Platform selection and validation (internal/registry/registry.go) -/

/-- Go byte-wise string comparison a <= b on character lists (UTF-8 byte
order equals code-point order). -/
def charsLe : List Char → List Char → Bool
  | [], _ => true
  | _ :: _, [] => false
  | a :: as, b :: bs =>
    if a.toNat = b.toNat then charsLe as bs
    else decide (a.toNat < b.toNat)

/-- Go string comparison a <= b. -/
def strLe (a b : String) : Bool := charsLe a.toList b.toList

theorem charsLe_total (a : List Char) : ∀ b, charsLe a b = true ∨ charsLe b a = true := by
  induction a with
  | nil => intro b; left; rfl
  | cons x xs ih =>
    intro b
    cases b with
    | nil => right; rfl
    | cons y ys =>
      by_cases hxy : x.toNat = y.toNat
      · rcases ih ys with h | h
        · left; simp [charsLe, hxy, h]
        · right; simp [charsLe, hxy.symm, h]
      · by_cases hlt : x.toNat < y.toNat
        · left; simp [charsLe, hxy, hlt]
        · right
          have h2 : ¬y.toNat = x.toNat := fun h => hxy h.symm
          have h3 : y.toNat < x.toNat := by omega
          simp [charsLe, h2, h3]

theorem charsLe_trans (a : List Char) :
    ∀ b c, charsLe a b = true → charsLe b c = true → charsLe a c = true := by
  induction a with
  | nil => intro b c h1 h2; rfl
  | cons x xs ih =>
    intro b c h1 h2
    cases b with
    | nil => simp [charsLe] at h1
    | cons y ys =>
      cases c with
      | nil => simp [charsLe] at h2
      | cons z zs =>
        simp only [charsLe] at h1 h2 ⊢
        by_cases hxy : x.toNat = y.toNat <;> by_cases hyz : y.toNat = z.toNat
        · have hxz : x.toNat = z.toNat := hxy.trans hyz
          rw [if_pos hxy] at h1
          rw [if_pos hyz] at h2
          rw [if_pos hxz]
          exact ih ys zs h1 h2
        · rw [if_pos hxy] at h1
          rw [if_neg hyz] at h2
          have hyz2 : y.toNat < z.toNat := by simpa using h2
          have hxz : ¬x.toNat = z.toNat := by omega
          rw [if_neg hxz]
          simp
          omega
        · rw [if_neg hxy] at h1
          rw [if_pos hyz] at h2
          have hxy2 : x.toNat < y.toNat := by simpa using h1
          have hxz : ¬x.toNat = z.toNat := by omega
          rw [if_neg hxz]
          simp
          omega
        · rw [if_neg hxy] at h1
          rw [if_neg hyz] at h2
          have hxy2 : x.toNat < y.toNat := by simpa using h1
          have hyz2 : y.toNat < z.toNat := by simpa using h2
          have hxz : ¬x.toNat = z.toNat := by omega
          rw [if_neg hxz]
          simp
          omega

instance : IsTotal String fun a b => strLe a b = true :=
  ⟨fun a b => charsLe_total a.toList b.toList⟩

instance : IsTrans String fun a b => strLe a b = true :=
  ⟨fun a b c => charsLe_trans a.toList b.toList c.toList⟩

/-- registry.go sortedKeyString sorting step: Go sort.Slice with
keys[i] < keys[j]; any comparison sort gives the same result on string
keys, modelled as insertion sort by strLe. -/
def sortStrings (ks : List String) : List String :=
  List.insertionSort (fun a b => strLe a b = true) ks

/-- registry.go sortedKeyString (lines 470-479): the map keys sorted
lexicographically and joined with ", ". The model takes the key list of
the map. -/
def sortedKeyString (ks : List String) : String :=
  String.intercalate ", " (sortStrings ks)

/-- registry.go requireValidPlatform (lines 446-468), over the key list
of the platforms map (Go map key sets are unordered; every use below is
insensitive to the order of ks). -/
def requireValidPlatform (platform : String) (platforms : List String) :
    Except String String :=
  if platforms.length = 0 then .error "image config contains no platform information"
  else if platform = "" then
    match platforms with
    | [p] => .ok p
    | _ => .error ("choose a platform: " ++ sortedKeyString platforms)
  else if platforms.contains platform then .ok platform
  else .error (platform ++ " is not a supported platform: " ++ sortedKeyString platforms)

/-- The three maps built by registry.go findPlatformManifest (lines
411-428). -/
structure PlatformMaps where
  platformToURL : List (String × String)
  platformToOSVersion : List (String × String)
  urlToMediaType : List (String × String)
deriving Repr, DecidableEq, Inhabited

def emptyPlatformMaps : PlatformMaps := ⟨[], [], []⟩

/-- One iteration of the findPlatformManifest loop: skip entries with no
derived platform; otherwise record (url, os.version, media type) under
the platform key when the entry's os.version is >= the last recorded one
(absent keys read as ""). -/
def stepPlatformMaps (baseURL path : String) (m : PlatformMaps)
    (ref : ImageManifestReferenceV1) : PlatformMaps :=
  if pathJoin2 ref.platform.os ref.platform.architecture = "" then m
  else if strLe
      (lookupD m.platformToOSVersion (pathJoin2 ref.platform.os ref.platform.architecture))
      ref.platform.osVersion then
    { platformToURL :=
        insertKV m.platformToURL (pathJoin2 ref.platform.os ref.platform.architecture)
          (baseURL ++ "/" ++ path ++ "/manifests/" ++ ref.digest)
      platformToOSVersion :=
        insertKV m.platformToOSVersion (pathJoin2 ref.platform.os ref.platform.architecture)
          ref.platform.osVersion
      urlToMediaType :=
        insertKV m.urlToMediaType (baseURL ++ "/" ++ path ++ "/manifests/" ++ ref.digest)
          ref.mediaType }
  else m

def buildPlatformMaps (baseURL path : String) (index : ImageIndexV1) : PlatformMaps :=
  index.manifests.foldl (stepPlatformMaps baseURL path) emptyPlatformMaps

/-- registry.go findPlatformManifest (lines 411-444) up to the final HTTP
fetch: build the platform maps, validate the requested platform against
the map keys, and return the URL of the chosen manifest together with the
Accept media type the subsequent GET would use. -/
def findPlatformManifest (baseURL path : String) (index : ImageIndexV1)
    (platform : String) : Except String (String × String) :=
  let m := buildPlatformMaps baseURL path index
  match requireValidPlatform platform (m.platformToURL.map Prod.fst) with
  | .error e => .error e
  | .ok p => .ok (lookupD m.platformToURL p, lookupD m.urlToMediaType (lookupD m.platformToURL p))

/-- Reading back the key just written. -/
theorem lookupD_insertKV_self (m : List (String × String)) (k v : String) :
    lookupD (insertKV m k v) k = v := by
  induction m with
  | nil => simp [insertKV, lookupD]
  | cons kv0 rest ih =>
    by_cases hk : kv0.1 == k
    · simp [insertKV, hk, lookupD]
    · simp only [insertKV, hk, Bool.false_eq_true, if_false, lookupD, List.find?]
      simpa [lookupD] using ih

/-! ## Filesystem layer reader (registry.go ReadFilesystemLayer, lines
493-556 of the api-based version) -/

/-- archive/tar TypeReg: the type flag byte of a regular file. -/
def tarTypeReg : Char := '0'

/-- A decoded tar header as the reader consumes it: type flag, name, size,
Unix permission mode, and modification time (abstract instant). The
gzip/tar decoding itself is stream plumbing; the reader is modelled from
the decoded entry sequence on. -/
structure TarHeader where
  typeflag : Char
  name : String
  size : Int
  mode : Nat
  modTime : Nat
deriving Repr, DecidableEq, Inhabited

/-- The argument tuple of one readFile callback invocation. The entry
reader handed to the callback is not modelled; the callback result is
Option String — some holds a Go error message. -/
structure FileArg where
  name : String
  size : Int
  mode : Nat
  modTime : Nat
deriving Repr, DecidableEq, Inhabited

/-- th.FileInfo().Mode() followed by the zero-permission substitution of
registry.go lines 539-543: when mode.Perm() == 0 — all low 0o777 bits
zero, i.e. mode % 512 = 0 — the mode becomes 0o644 & os.ModePerm = 0o644.
The re-encoding of setuid/setgid/sticky into high os.FileMode bit
positions is elided; the permission bits the program branches on are kept
verbatim. -/
def effectiveTarMode (m : Nat) : Nat := if m % 512 = 0 then 0o644 else m

/-- The tar loop of ReadFilesystemLayer (lines 520-547): skip entries that
are not regular files, skip names containing ".wh.", invoke readFile with
the effective mode, and abort on a callback error wrapped as
"error calling readFile on <name>: <err>". Returns the list of callback
invocations in order together with the terminating error, if any. -/
def runTarEntries (rf : FileArg → Option String) :
    List TarHeader → List FileArg × Option String
  | [] => ([], none)
  | th :: rest =>
    if th.typeflag ≠ tarTypeReg then runTarEntries rf rest
    else if strContains th.name ".wh." then runTarEntries rf rest
    else
      match rf ⟨th.name, th.size, effectiveTarMode th.mode, th.modTime⟩ with
      | some e =>
        ([⟨th.name, th.size, effectiveTarMode th.mode, th.modTime⟩],
         some ("error calling readFile on " ++ th.name ++ ": " ++ e))
      | none =>
        let r := runTarEntries rf rest
        (⟨th.name, th.size, effectiveTarMode th.mode, th.modTime⟩ :: r.1, r.2)

/-- ReadFilesystemLayer dispatch on layer.MediaType() (lines 494-556):
recognized rootfs tar.gz types run the tar loop over the decoded entries;
recognized Wasm types require a non-empty file name (else
"missing filename") and then invoke the callback once with
(file_name, layer.size, 0o644, now, body); any other media type fails
with "unexpected media type: <type>" before anything is fetched. -/
def readFilesystemLayer (layer : FilesystemLayer) (rf : FileArg → Option String)
    (entries : List TarHeader) (now : Nat) : List FileArg × Option String :=
  if layer.mediaType = mediaTypeOCIImageLayer ∨
      layer.mediaType = mediaTypeDockerImageLayer then
    runTarEntries rf entries
  else if layer.mediaType = mediaTypeWasmImageLayer ∨
      layer.mediaType = mediaTypeWasmImageConfig then
    if layer.fileName = "" then ([], some "missing filename")
    else
      ([⟨layer.fileName, layer.size, 0o644, now⟩],
       rf ⟨layer.fileName, layer.size, 0o644, now⟩)
  else ([], some ("unexpected media type: " ++ layer.mediaType))

/-! ## Pattern matcher (internal/patternmatcher/patternmatcher.go) and
the shared List/Extract driver (internal/car/car.go do) -/

/-- The pattern matcher state: the patterns map[string]bool modelled as an
association list in insertion order (Go map iteration order is
unspecified; everything proved below is insensitive to it), plus the
fastRead flag. The glob predicate — Go filepath.Match, standard-library
code rather than repository code — is a parameter throughout. -/
structure PatternState where
  patterns : List (String × Bool)
  fastRead : Bool
deriving Repr, DecidableEq, Inhabited

/-- patternmatcher.New (lines 37-43): every pattern starts unsatisfied. -/
def newPatternState (patterns : List String) (fastRead : Bool) : PatternState :=
  ⟨patterns.map (fun p => (p, false)), fastRead⟩

/-- The loop of MatchesPattern: flag the first pattern matching name as
satisfied and stop; none when no pattern matches. -/
def markFirstMatch (glob : String → String → Bool) (name : String) :
    List (String × Bool) → Option (List (String × Bool))
  | [] => none
  | pb :: rest =>
    if glob pb.1 name then some ((pb.1, true) :: rest)
    else
      match markFirstMatch glob name rest with
      | some rest2 => some (pb :: rest2)
      | none => none

/-- patternmatcher MatchesPattern (lines 45-56): true on an empty pattern
map; otherwise flag the first matching pattern and return true, or return
false leaving the state unchanged. -/
def matchesPattern (glob : String → String → Bool) (st : PatternState)
    (name : String) : Bool × PatternState :=
  if st.patterns.isEmpty then (true, st)
  else
    match markFirstMatch glob name st.patterns with
    | some ps => (true, ⟨ps, st.fastRead⟩)
    | none => (false, st)

/-- patternmatcher Unmatched (lines 62-70). -/
def unmatchedPatterns (st : PatternState) : List String :=
  (st.patterns.filter fun pb => !pb.2).map Prod.fst

/-- patternmatcher StillMatching (lines 58-60):
!fastRead || len(patterns) == 0 || len(Unmatched()) > 0. -/
def stillMatching (st : PatternState) : Bool :=
  !st.fastRead || st.patterns.isEmpty || !(unmatchedPatterns st).isEmpty

/-- car.go stripLeadingSlash (lines 367-372). -/
def stripLeadingSlash (name : String) : String :=
  match name.toList with
  | c :: rest => if c = '/' then String.mk rest else name
  | [] => name

/-- The callback arguments ReadFilesystemLayer produces for the kept
entries of a tar layer, in order: the runTarEntries invocation trace when
the callback returns no error (theorem runTarEntries_trace). -/
def tarFileArgs (ths : List TarHeader) : List FileArg :=
  (ths.filter fun th => th.typeflag == tarTypeReg && !strContains th.name ".wh.").map
    fun th => ⟨th.name, th.size, effectiveTarMode th.mode, th.modTime⟩

/-- When the callback never errs, the tar loop invokes it on exactly the
kept entries, in order, and succeeds. -/
theorem runTarEntries_trace (rf : FileArg → Option String)
    (hrf : ∀ a, rf a = none) :
    ∀ ths, runTarEntries rf ths = (tarFileArgs ths, none) := by
  intro ths
  induction ths with
  | nil => rfl
  | cons th rest ih =>
    by_cases h1 : th.typeflag = tarTypeReg
    · by_cases h2 : strContains th.name ".wh." = true
      · simp [runTarEntries, h1, h2, tarFileArgs, List.filter_cons, ih]
      · simp only [Bool.not_eq_true] at h2
        simp [runTarEntries, h1, h2, hrf, tarFileArgs, List.filter_cons, ih]
    · simp [runTarEntries, h1, tarFileArgs, List.filter_cons, ih]

/-- One ReadFilesystemLayer call inside do, specialised to a rootfs tar
layer and to the List/Extract callbacks (which return no error): do wraps
the per-mode callback so that each invocation strips a leading slash from
the name and consults MatchesPattern, threading the matcher state. -/
def scanLayer (glob : String → String → Bool) (st : PatternState)
    (layer : List TarHeader) : PatternState :=
  (tarFileArgs layer).foldl
    (fun s a => (matchesPattern glob s (stripLeadingSlash a.name)).2) st

/-- The layer loop of do (car.go lines 263-273): process layers in order,
stopping after the first layer for which StillMatching is false. Returns
the final matcher state and the number of layers read. -/
def doLoop (glob : String → String → Bool) :
    PatternState → List (List TarHeader) → PatternState × Nat
  | st, [] => (st, 0)
  | st, layer :: rest =>
    let st2 := scanLayer glob st layer
    if stillMatching st2 then
      let r := doLoop glob st2 rest
      (r.1, r.2 + 1)
    else (st2, 1)

/-- car.go do (lines 250-279) on the success path of GetImage and of each
ReadFilesystemLayer call: construct the matcher from the file patterns and
fastRead, scan the layers, then fail with
"<joined unmatched patterns> not found in layer" exactly when Unmatched()
is non-empty. Returns the run error and the number of layers read. -/
def doRun (glob : String → String → Bool) (filePatterns : List String)
    (fastRead : Bool) (layers : List (List TarHeader)) : Option String × Nat :=
  let r := doLoop glob (newPatternState filePatterns fastRead) layers
  (if (unmatchedPatterns r.1).isEmpty then none
   else some (String.intercalate ", " (unmatchedPatterns r.1) ++ " not found in layer"),
   r.2)

end Car

/-- C7 evaluation: what internal/reference.Parse actually returns on the six
inputs of the claim. The two Docker Hub familiar references produce domain
"docker.io", not "index.docker.io" as the claim (and the repository's own
test Test_Parse in reference.go, which requires domain "index.docker.io"
for these very inputs) states; the remaining four cases agree with the
claim. -/
theorem parse_reference_divergence :
    Car.parseReference "alpine:3.14.0" =
      .ok ⟨"docker.io", "library/alpine", "3.14.0"⟩ ∧
    Car.parseReference "envoyproxy/envoy:v1.18.3" =
      .ok ⟨"docker.io", "envoyproxy/envoy", "v1.18.3"⟩ ∧
    Car.parseReference "ghcr.io/homebrew/core/envoy:1.18.3-1" =
      .ok ⟨"ghcr.io", "homebrew/core/envoy", "1.18.3-1"⟩ ∧
    Car.parseReference "localhost:5000/tetratelabs/car:latest" =
      .ok ⟨"localhost:5000", "tetratelabs/car", "latest"⟩ ∧
    Car.parseReference "foo/bar" = .error "expected tagged reference" ∧
    Car.parseReference "" = .error "invalid reference format" ∧
    "docker.io" ≠ "index.docker.io" := by
  refine ⟨rfl, rfl, rfl, rfl, rfl, rfl, by decide⟩

/-- C1: layer assembly correlates the manifest's ordered layers with the
config's ordered history with two independently advancing cursors,
skipping empty_layer entries before binding each layer, and backfills an
empty history with one synthesized entry per layer; consequently, when
the history holds at least one non-empty entry per manifest layer, the
assembled layers are exactly the positional pairing of the layers with
the non-empty history entries, filtered by the foreign-media and
ignored-directive exclusions — so the i-th kept layer's created_by is the
i-th non-empty history entry surviving the exclusions. -/
theorem assembly_correlates_layers_with_history :
    (∀ (base : String) (manifest : Car.ImageManifestV1) (config : Car.ImageConfigV1),
        manifest.layers.length ≤ (Car.specNonEmptyHistory config.history).length →
        Car.filterLayers base manifest config =
          some (Car.specAssembledLayers base manifest.layers config.history)) ∧
    (∀ (base : String) (manifest : Car.ImageManifestV1) (config : Car.ImageConfigV1),
        config.history = [] →
        Car.filterLayers base manifest config =
          some (Car.specAssembledLayers base manifest.layers
            (List.replicate manifest.layers.length Car.zeroHistory))) :=
  ⟨Car.filterLayers_correct_le, Car.filterLayers_correct_nil⟩

/-- C1 witness: a manifest with two tar layers and a history interleaving
two empty_layer entries; the assembled layers carry the two non-empty
created_by strings in order. -/
theorem assembly_correlates_witness :
    (⟨"u", ⟨"c", "d0", 0, []⟩,
        [⟨Car.mediaTypeDockerImageLayer, "sha256:l1", 5, []⟩,
         ⟨Car.mediaTypeDockerImageLayer, "sha256:l2", 6, []⟩]⟩ :
          Car.ImageManifestV1).layers.length ≤
      (Car.specNonEmptyHistory
        [⟨"noise", true⟩, ⟨"ADD rootfs /", false⟩, ⟨"x", true⟩,
         ⟨"RUN make", false⟩]).length ∧
    Car.filterLayers "b"
        ⟨"u", ⟨"c", "d0", 0, []⟩,
         [⟨Car.mediaTypeDockerImageLayer, "sha256:l1", 5, []⟩,
          ⟨Car.mediaTypeDockerImageLayer, "sha256:l2", 6, []⟩]⟩
        ⟨"amd64", "linux", "",
         [⟨"noise", true⟩, ⟨"ADD rootfs /", false⟩, ⟨"x", true⟩,
          ⟨"RUN make", false⟩]⟩ =
      some (Car.specAssembledLayers "b"
        [⟨Car.mediaTypeDockerImageLayer, "sha256:l1", 5, []⟩,
         ⟨Car.mediaTypeDockerImageLayer, "sha256:l2", 6, []⟩]
        [⟨"noise", true⟩, ⟨"ADD rootfs /", false⟩, ⟨"x", true⟩,
         ⟨"RUN make", false⟩]) ∧
    (Car.specAssembledLayers "b"
        [⟨Car.mediaTypeDockerImageLayer, "sha256:l1", 5, []⟩,
         ⟨Car.mediaTypeDockerImageLayer, "sha256:l2", 6, []⟩]
        [⟨"noise", true⟩, ⟨"ADD rootfs /", false⟩, ⟨"x", true⟩,
         ⟨"RUN make", false⟩]).map Car.FilesystemLayer.createdBy =
      ["ADD rootfs /", "RUN make"] :=
  ⟨by decide,
   assembly_correlates_layers_with_history.1 "b"
     ⟨"u", ⟨"c", "d0", 0, []⟩,
      [⟨Car.mediaTypeDockerImageLayer, "sha256:l1", 5, []⟩,
       ⟨Car.mediaTypeDockerImageLayer, "sha256:l2", 6, []⟩]⟩
     ⟨"amd64", "linux", "",
      [⟨"noise", true⟩, ⟨"ADD rootfs /", false⟩, ⟨"x", true⟩,
       ⟨"RUN make", false⟩]⟩ (by decide),
   by decide⟩

/-- C4: a non-foreign layer is dropped by the assembly loop exactly when
its bound created_by matches skipCreatedByPattern; the Windows EXPOSE
example is dropped and the buildkit COPY example is kept. -/
theorem layer_dropped_iff_created_by_matches :
    (∀ (base : String) (l : Car.DescriptorV1) (ls : List Car.DescriptorV1)
        (hist rest : List Car.HistoryV1) (h : Car.HistoryV1),
        Car.popNonEmpty hist = some (h, rest) →
        (l.mediaType == Car.mediaTypeDockerImageForeignLayer) = false →
        Car.filterLayersLoop base (l :: ls) hist =
          if Car.skipCreatedByMatch h.createdBy then Car.filterLayersLoop base ls rest
          else (Car.filterLayersLoop base ls rest).map
            fun tail => Car.newFilesystemLayer l base h.createdBy :: tail) ∧
    Car.skipCreatedByMatch "cmd /S /C #(nop)  EXPOSE 10000" = true ∧
    Car.skipCreatedByMatch "COPY ci/docker-entrypoint.sh / # buildkit" = false := by
  refine ⟨?_, by decide, by decide⟩
  intro base l ls hist rest h hpop hf
  simp only [Car.filterLayersLoop, hpop]
  cases hrec : Car.filterLayersLoop base ls rest with
  | none =>
    by_cases hs : Car.skipCreatedByMatch h.createdBy = true <;> simp [hf, hs, hrec]
  | some tail =>
    by_cases hs : Car.skipCreatedByMatch h.createdBy = true <;> simp [hf, hs, hrec]

/-- C4 witness: the step equation applied to one docker tar layer bound
to the EXPOSE history entry, together with concrete evaluation. -/
theorem layer_dropped_iff_created_by_matches_witness :
    Car.popNonEmpty [⟨"cmd /S /C #(nop)  EXPOSE 10000", false⟩] =
      some (⟨"cmd /S /C #(nop)  EXPOSE 10000", false⟩, []) ∧
    ((Car.mediaTypeDockerImageLayer : String) ==
      Car.mediaTypeDockerImageForeignLayer) = false ∧
    Car.filterLayersLoop "b" [⟨Car.mediaTypeDockerImageLayer, "sha256:x", 1, []⟩]
        [⟨"cmd /S /C #(nop)  EXPOSE 10000", false⟩] =
      (if Car.skipCreatedByMatch "cmd /S /C #(nop)  EXPOSE 10000" then
        Car.filterLayersLoop "b" [] []
      else (Car.filterLayersLoop "b" [] []).map
        fun tail =>
          Car.newFilesystemLayer ⟨Car.mediaTypeDockerImageLayer, "sha256:x", 1, []⟩
            "b" "cmd /S /C #(nop)  EXPOSE 10000" :: tail) :=
  ⟨by decide, by decide,
   layer_dropped_iff_created_by_matches.1 "b"
     ⟨Car.mediaTypeDockerImageLayer, "sha256:x", 1, []⟩ []
     [⟨"cmd /S /C #(nop)  EXPOSE 10000", false⟩] []
     ⟨"cmd /S /C #(nop)  EXPOSE 10000", false⟩ (by decide) (by decide)⟩

/-- C6 counterexample: a layer whose media type is outside the recognized
rootfs-tar/Wasm set (and is not the foreign Docker type) is NOT dropped
by the current filterLayers: only the foreign media type is excluded, so
the claim fails as stated. -/
theorem unknown_media_type_layer_kept :
    Car.filterLayers "b"
        ⟨"u", ⟨"c", "d0", 0, []⟩,
         [⟨"application/vnd.example.unknown", "sha256:l1", 4, []⟩]⟩
        ⟨"amd64", "linux", "", [⟨"RUN make", false⟩]⟩ =
      some [⟨"b/blobs/sha256:l1", "application/vnd.example.unknown", 4, "RUN make", ""⟩] ∧
    "application/vnd.example.unknown" ≠ Car.mediaTypeOCIImageLayer ∧
    "application/vnd.example.unknown" ≠ Car.mediaTypeDockerImageLayer ∧
    "application/vnd.example.unknown" ≠ Car.mediaTypeWasmImageLayer ∧
    "application/vnd.example.unknown" ≠ Car.mediaTypeWasmImageConfig ∧
    "application/vnd.example.unknown" ≠ Car.mediaTypeDockerImageForeignLayer := by
  refine ⟨by decide, by decide, by decide, by decide, by decide, by decide⟩

/-- C6 amended: during assembly exactly the foreign Docker media type is
dropped on media-type grounds — every layer of every assembled image has
a non-foreign media type (unrecognized types are kept at assembly and
only rejected later by ReadFilesystemLayer). -/
theorem foreign_layers_always_dropped :
    ∀ (base : String) (manifest : Car.ImageManifestV1) (config : Car.ImageConfigV1)
      (out : List Car.FilesystemLayer),
      Car.filterLayers base manifest config = some out →
      ∀ fl ∈ out, fl.mediaType ≠ Car.mediaTypeDockerImageForeignLayer := by
  intro base manifest config out hout
  simp only [Car.filterLayers] at hout
  exact Car.filterLayersLoop_no_foreign base manifest.layers _ out hout

/-- C6 witness: a two-layer manifest with one foreign layer assembles to
a single non-foreign layer. -/
theorem foreign_layers_always_dropped_witness :
    Car.filterLayers "b"
        ⟨"u", ⟨"c", "d0", 0, []⟩,
         [⟨Car.mediaTypeDockerImageForeignLayer, "sha256:f", 9, []⟩,
          ⟨Car.mediaTypeDockerImageLayer, "sha256:l1", 5, []⟩]⟩
        ⟨"amd64", "linux", "", [⟨"ADD a /", false⟩, ⟨"ADD b /", false⟩]⟩ =
      some [⟨"b/blobs/sha256:l1", Car.mediaTypeDockerImageLayer, 5, "ADD b /", ""⟩] ∧
    (⟨"b/blobs/sha256:l1", Car.mediaTypeDockerImageLayer, 5, "ADD b /", ""⟩ :
        Car.FilesystemLayer).mediaType ≠ Car.mediaTypeDockerImageForeignLayer :=
  ⟨by decide,
   foreign_layers_always_dropped "b"
     ⟨"u", ⟨"c", "d0", 0, []⟩,
      [⟨Car.mediaTypeDockerImageForeignLayer, "sha256:f", 9, []⟩,
       ⟨Car.mediaTypeDockerImageLayer, "sha256:l1", 5, []⟩]⟩
     ⟨"amd64", "linux", "", [⟨"ADD a /", false⟩, ⟨"ADD b /", false⟩]⟩
     [⟨"b/blobs/sha256:l1", Car.mediaTypeDockerImageLayer, 5, "ADD b /", ""⟩]
     (by decide)
     ⟨"b/blobs/sha256:l1", Car.mediaTypeDockerImageLayer, 5, "ADD b /", ""⟩
     (by decide)⟩

/-- C10 counterexample: a non-empty history whose entries are all
empty_layer, with a one-layer manifest, drives the history cursor past
the end of the array — the Go loop "for history[k].EmptyLayer" indexes
out of range (modelled as none), so assembly does NOT stay in bounds for
every manifest/config pair. -/
theorem history_cursor_out_of_range :
    Car.filterLayers "base"
        ⟨"u", ⟨"c", "d0", 0, []⟩,
         [⟨Car.mediaTypeDockerImageLayer, "sha256:l1", 5, []⟩]⟩
        ⟨"amd64", "linux", "", [⟨"#(nop) noise", true⟩]⟩ = none ∧
    ([⟨"#(nop) noise", true⟩] : List Car.HistoryV1) ≠ [] ∧
    (Car.specNonEmptyHistory [⟨"#(nop) noise", true⟩]).length <
      ([⟨Car.mediaTypeDockerImageLayer, "sha256:l1", 5, []⟩] :
        List Car.DescriptorV1).length := by
  refine ⟨by decide, by decide, by decide⟩

/-- C10 amended: layer assembly stays within the bounds of the history
array whenever the history is empty (it is backfilled) or holds at least
one non-empty entry per manifest layer; with fewer non-empty entries than
layers the cursor loop indexes out of range. -/
theorem history_access_in_bounds :
    ∀ (base : String) (manifest : Car.ImageManifestV1) (config : Car.ImageConfigV1),
      (config.history = [] ∨
        manifest.layers.length ≤ (Car.specNonEmptyHistory config.history).length) →
      (Car.filterLayers base manifest config).isSome = true := by
  intro base manifest config hcase
  rcases hcase with hnil | hlen
  · rw [Car.filterLayers_correct_nil base manifest config hnil]
    rfl
  · rw [Car.filterLayers_correct_le base manifest config hlen]
    rfl

/-- C10 witness: the bound holds for a one-layer manifest whose history
has one non-empty entry. -/
theorem history_access_in_bounds_witness :
    (Car.filterLayers "b"
        ⟨"u", ⟨"c", "d0", 0, []⟩,
         [⟨Car.mediaTypeDockerImageLayer, "sha256:l1", 5, []⟩]⟩
        ⟨"amd64", "linux", "", [⟨"ADD a /", false⟩]⟩).isSome = true :=
  history_access_in_bounds "b"
    ⟨"u", ⟨"c", "d0", 0, []⟩,
     [⟨Car.mediaTypeDockerImageLayer, "sha256:l1", 5, []⟩]⟩
    ⟨"amd64", "linux", "", [⟨"ADD a /", false⟩]⟩
    (Or.inr (by decide))

/-- C2: requireValidPlatform implements the five-way case analysis of the
claim, with the error key lists sorted lexicographically (the sorted list
is a pairwise-le permutation of the keys) and comma-separated. -/
theorem require_valid_platform_cases :
    (∀ p : String,
        Car.requireValidPlatform p [] =
          .error "image config contains no platform information") ∧
    (∀ k : String, Car.requireValidPlatform "" [k] = .ok k) ∧
    (∀ ks : List String, 2 ≤ ks.length →
        Car.requireValidPlatform "" ks =
          .error ("choose a platform: " ++ Car.sortedKeyString ks)) ∧
    (∀ (p : String) (ks : List String), p ≠ "" → ks.contains p = true →
        Car.requireValidPlatform p ks = .ok p) ∧
    (∀ (p : String) (ks : List String), p ≠ "" → ks.contains p = false → ks ≠ [] →
        Car.requireValidPlatform p ks =
          .error (p ++ " is not a supported platform: " ++ Car.sortedKeyString ks)) ∧
    (∀ ks : List String,
        (Car.sortStrings ks).Pairwise (fun a b => Car.strLe a b = true) ∧
        (Car.sortStrings ks).Perm ks ∧
        Car.sortedKeyString ks = String.intercalate ", " (Car.sortStrings ks)) := by
  refine ⟨?_, ?_, ?_, ?_, ?_, ?_⟩
  · intro p; rfl
  · intro k; rfl
  · intro ks hlen
    match ks with
    | [] => simp at hlen
    | [a] => simp at hlen
    | a :: b :: t => rfl
  · intro p ks hp hc
    have h0 : ¬ks.length = 0 := by
      intro h
      rw [List.length_eq_zero] at h
      subst h
      simp at hc
    have hm : p ∈ ks := by simpa using hc
    simp [Car.requireValidPlatform, h0, hp, hc, hm]
  · intro p ks hp hc hne
    have h0 : ¬ks.length = 0 := by simpa [List.length_eq_zero] using hne
    have hm : p ∉ ks := by simpa using hc
    simp [Car.requireValidPlatform, h0, hp, hc, hm]
  · intro ks
    exact ⟨List.sorted_insertionSort _ ks, List.perm_insertionSort _ ks, rfl⟩

/-- C2 witness: the five cases at concrete platform maps, including the
sorted comma-separated key list. -/
theorem require_valid_platform_witness :
    Car.requireValidPlatform "x" [] =
      .error "image config contains no platform information" ∧
    Car.requireValidPlatform "" ["linux/amd64"] = .ok "linux/amd64" ∧
    2 ≤ (["linux/arm64", "linux/amd64"] : List String).length ∧
    Car.requireValidPlatform "" ["linux/arm64", "linux/amd64"] =
      .error ("choose a platform: " ++ Car.sortedKeyString ["linux/arm64", "linux/amd64"]) ∧
    Car.sortedKeyString ["linux/arm64", "linux/amd64"] = "linux/amd64, linux/arm64" ∧
    Car.requireValidPlatform "linux/arm64" ["linux/amd64", "linux/arm64"] =
      .ok "linux/arm64" ∧
    Car.requireValidPlatform "windows/arm64" ["linux/amd64", "linux/arm64"] =
      .error ("windows/arm64 is not a supported platform: " ++
        Car.sortedKeyString ["linux/amd64", "linux/arm64"]) :=
  ⟨require_valid_platform_cases.1 "x",
   require_valid_platform_cases.2.1 "linux/amd64",
   by decide,
   require_valid_platform_cases.2.2.1 ["linux/arm64", "linux/amd64"] (by decide),
   by decide,
   require_valid_platform_cases.2.2.2.1 "linux/arm64" ["linux/amd64", "linux/arm64"]
     (by decide) (by decide),
   require_valid_platform_cases.2.2.2.2.1 "windows/arm64" ["linux/amd64", "linux/arm64"]
     (by decide) (by decide) (by decide)⟩

/-- C8: platform selection from an index keys the map by os/arch, ignores
entries with no derived platform, overwrites a recorded platform when a
larger os.version is seen, and on the two-entry darwin/amd64 example with
os.versions "macOS 10.15.7" and "macOS 11.3" selects the "macOS 11.3"
manifest (in either entry order). -/
theorem index_platform_selection :
    (∀ (base pth : String) (m : Car.PlatformMaps) (ref : Car.ImageManifestReferenceV1),
        Car.pathJoin2 ref.platform.os ref.platform.architecture = "" →
        Car.stepPlatformMaps base pth m ref = m) ∧
    (∀ (base pth : String) (m : Car.PlatformMaps) (ref : Car.ImageManifestReferenceV1),
        Car.pathJoin2 ref.platform.os ref.platform.architecture ≠ "" →
        Car.strLe ref.platform.osVersion
            (Car.lookupD m.platformToOSVersion
              (Car.pathJoin2 ref.platform.os ref.platform.architecture)) = false →
        Car.lookupD (Car.stepPlatformMaps base pth m ref).platformToURL
            (Car.pathJoin2 ref.platform.os ref.platform.architecture) =
          base ++ "/" ++ pth ++ "/manifests/" ++ ref.digest) ∧
    Car.findPlatformManifest "https://ghcr.io/v2" "r"
        ⟨[⟨"mt1", "sha256:old", ⟨"amd64", "darwin", "macOS 10.15.7"⟩⟩,
          ⟨"mt2", "sha256:new", ⟨"amd64", "darwin", "macOS 11.3"⟩⟩]⟩ "darwin/amd64" =
      .ok ("https://ghcr.io/v2/r/manifests/sha256:new", "mt2") ∧
    Car.findPlatformManifest "https://ghcr.io/v2" "r"
        ⟨[⟨"mt2", "sha256:new", ⟨"amd64", "darwin", "macOS 11.3"⟩⟩,
          ⟨"mt1", "sha256:old", ⟨"amd64", "darwin", "macOS 10.15.7"⟩⟩]⟩ "darwin/amd64" =
      .ok ("https://ghcr.io/v2/r/manifests/sha256:new", "mt2") := by
  refine ⟨?_, ?_, rfl, rfl⟩
  · intro base pth m ref hp
    simp [Car.stepPlatformMaps, hp]
  · intro base pth m ref hp hv
    have hle : Car.strLe
        (Car.lookupD m.platformToOSVersion
          (Car.pathJoin2 ref.platform.os ref.platform.architecture))
        ref.platform.osVersion = true := by
      rcases Car.charsLe_total
          (Car.lookupD m.platformToOSVersion
            (Car.pathJoin2 ref.platform.os ref.platform.architecture)).toList
          ref.platform.osVersion.toList with h | h
      · exact h
      · rw [Car.strLe] at hv
        rw [h] at hv
        simp at hv
    simp [Car.stepPlatformMaps, hp, hle, Car.lookupD_insertKV_self]

/-- C8 witness: the no-platform entry is ignored, and the overwrite
equation applied to the empty map with the 11.3 entry. -/
theorem index_platform_selection_witness :
    Car.pathJoin2 "" "" = "" ∧
    Car.stepPlatformMaps "b" "r" Car.emptyPlatformMaps ⟨"mt0", "sha256:z", ⟨"", "", ""⟩⟩ =
      Car.emptyPlatformMaps ∧
    Car.pathJoin2 "darwin" "amd64" ≠ "" ∧
    Car.strLe "macOS 11.3"
        (Car.lookupD Car.emptyPlatformMaps.platformToOSVersion
          (Car.pathJoin2 "darwin" "amd64")) = false ∧
    Car.lookupD
        (Car.stepPlatformMaps "b" "r" Car.emptyPlatformMaps
          ⟨"mt2", "sha256:new", ⟨"amd64", "darwin", "macOS 11.3"⟩⟩).platformToURL
        (Car.pathJoin2 "darwin" "amd64") =
      "b" ++ "/" ++ "r" ++ "/manifests/" ++ "sha256:new" :=
  ⟨by decide,
   index_platform_selection.1 "b" "r" Car.emptyPlatformMaps
     ⟨"mt0", "sha256:z", ⟨"", "", ""⟩⟩ (by decide),
   by decide,
   by decide,
   index_platform_selection.2.1 "b" "r" Car.emptyPlatformMaps
     ⟨"mt2", "sha256:new", ⟨"amd64", "darwin", "macOS 11.3"⟩⟩ (by decide) (by decide)⟩

/-- C3: in the gzipped-tar reading loop, non-regular entries are skipped,
entries whose name contains ".wh." are skipped, a kept entry reaches the
callback with the header mode except that an all-permission-bits-zero
mode becomes 0o644, and a callback error aborts the read wrapped as
"error calling readFile on <name>". -/
theorem tar_entry_processing :
    (∀ (rf : Car.FileArg → Option String) (th : Car.TarHeader)
        (rest : List Car.TarHeader), th.typeflag ≠ Car.tarTypeReg →
        Car.runTarEntries rf (th :: rest) = Car.runTarEntries rf rest) ∧
    (∀ (rf : Car.FileArg → Option String) (th : Car.TarHeader)
        (rest : List Car.TarHeader), Car.strContains th.name ".wh." = true →
        Car.runTarEntries rf (th :: rest) = Car.runTarEntries rf rest) ∧
    (∀ (rf : Car.FileArg → Option String) (th : Car.TarHeader)
        (rest : List Car.TarHeader),
        th.typeflag = Car.tarTypeReg → Car.strContains th.name ".wh." = false →
        (rf ⟨th.name, th.size, Car.effectiveTarMode th.mode, th.modTime⟩ = none →
          Car.runTarEntries rf (th :: rest) =
            (⟨th.name, th.size, Car.effectiveTarMode th.mode, th.modTime⟩ ::
               (Car.runTarEntries rf rest).1,
             (Car.runTarEntries rf rest).2)) ∧
        (∀ e : String,
          rf ⟨th.name, th.size, Car.effectiveTarMode th.mode, th.modTime⟩ = some e →
          Car.runTarEntries rf (th :: rest) =
            ([⟨th.name, th.size, Car.effectiveTarMode th.mode, th.modTime⟩],
             some ("error calling readFile on " ++ th.name ++ ": " ++ e)))) ∧
    (∀ m : Nat, m % 512 = 0 → Car.effectiveTarMode m = 0o644) ∧
    (∀ m : Nat, m % 512 ≠ 0 → Car.effectiveTarMode m = m) := by
  refine ⟨?_, ?_, ?_, ?_, ?_⟩
  · intro rf th rest h
    simp [Car.runTarEntries, h]
  · intro rf th rest h
    by_cases h1 : th.typeflag = Car.tarTypeReg
    · simp [Car.runTarEntries, h1, h]
    · simp [Car.runTarEntries, h1]
  · intro rf th rest h1 h2
    constructor
    · intro hrf
      simp [Car.runTarEntries, h1, h2, hrf]
    · intro e hrf
      simp [Car.runTarEntries, h1, h2, hrf]
  · intro m hm
    simp [Car.effectiveTarMode, hm]
  · intro m hm
    simp [Car.effectiveTarMode, hm]

/-- C3 witness: a directory entry, a whiteout entry, a zero-permission
regular entry under an error-free callback, and a failing callback, at
concrete headers. -/
theorem tar_entry_processing_witness :
    (⟨'5', "etc", 0, 493, 9⟩ : Car.TarHeader).typeflag ≠ Car.tarTypeReg ∧
    Car.runTarEntries (fun _ => none) [⟨'5', "etc", 0, 493, 9⟩] =
      Car.runTarEntries (fun _ => none) [] ∧
    Car.strContains (⟨'0', "a/.wh.b", 1, 420, 9⟩ : Car.TarHeader).name ".wh." = true ∧
    Car.runTarEntries (fun _ => none) [⟨'0', "a/.wh.b", 1, 420, 9⟩] =
      Car.runTarEntries (fun _ => none) [] ∧
    Car.runTarEntries (fun _ => none) [⟨'0', "bin/sh", 2, 0, 7⟩] =
      (⟨"bin/sh", 2, Car.effectiveTarMode 0, 7⟩ ::
         (Car.runTarEntries (fun _ => none) []).1,
       (Car.runTarEntries (fun _ => none) []).2) ∧
    Car.effectiveTarMode 0 = 0o644 ∧
    Car.effectiveTarMode 0o755 = 0o755 ∧
    Car.runTarEntries (fun _ => some "boom") [⟨'0', "bin/sh", 2, 416, 7⟩] =
      ([⟨"bin/sh", 2, Car.effectiveTarMode 416, 7⟩],
       some ("error calling readFile on " ++ "bin/sh" ++ ": " ++ "boom")) :=
  ⟨by decide,
   tar_entry_processing.1 (fun _ => none) ⟨'5', "etc", 0, 493, 9⟩ [] (by decide),
   by decide,
   tar_entry_processing.2.1 (fun _ => none) ⟨'0', "a/.wh.b", 1, 420, 9⟩ [] (by decide),
   (tar_entry_processing.2.2.1 (fun _ => none) ⟨'0', "bin/sh", 2, 0, 7⟩ []
      (by decide) (by decide)).1 rfl,
   tar_entry_processing.2.2.2.1 0 (by decide),
   tar_entry_processing.2.2.2.2 0o755 (by decide),
   (tar_entry_processing.2.2.1 (fun _ => some "boom") ⟨'0', "bin/sh", 2, 416, 7⟩ []
      (by decide) (by decide)).2 "boom" rfl⟩

/-- C9: on a Wasm raw layer, the read fails with "missing filename" when
the file name is empty, and otherwise invokes the callback exactly once
with (file_name, layer.size, 0o644, now, body); an unrecognized media
type fails with "unexpected media type: <type>" without invoking the
callback. -/
theorem wasm_layer_read :
    (∀ (layer : Car.FilesystemLayer) (rf : Car.FileArg → Option String)
        (entries : List Car.TarHeader) (now : Nat),
        layer.mediaType = Car.mediaTypeWasmImageLayer → layer.fileName = "" →
        Car.readFilesystemLayer layer rf entries now = ([], some "missing filename")) ∧
    (∀ (layer : Car.FilesystemLayer) (rf : Car.FileArg → Option String)
        (entries : List Car.TarHeader) (now : Nat),
        layer.mediaType = Car.mediaTypeWasmImageLayer → layer.fileName ≠ "" →
        Car.readFilesystemLayer layer rf entries now =
          ([⟨layer.fileName, layer.size, 0o644, now⟩],
           rf ⟨layer.fileName, layer.size, 0o644, now⟩)) ∧
    (∀ (layer : Car.FilesystemLayer) (rf : Car.FileArg → Option String)
        (entries : List Car.TarHeader) (now : Nat),
        layer.mediaType ≠ Car.mediaTypeOCIImageLayer →
        layer.mediaType ≠ Car.mediaTypeDockerImageLayer →
        layer.mediaType ≠ Car.mediaTypeWasmImageLayer →
        layer.mediaType ≠ Car.mediaTypeWasmImageConfig →
        Car.readFilesystemLayer layer rf entries now =
          ([], some ("unexpected media type: " ++ layer.mediaType))) := by
  refine ⟨?_, ?_, ?_⟩
  · intro layer rf entries now hmt hfn
    have hA : ¬(layer.mediaType = Car.mediaTypeOCIImageLayer ∨
        layer.mediaType = Car.mediaTypeDockerImageLayer) := by
      rw [hmt]; decide
    have hB : layer.mediaType = Car.mediaTypeWasmImageLayer ∨
        layer.mediaType = Car.mediaTypeWasmImageConfig := Or.inl hmt
    simp only [Car.readFilesystemLayer, if_neg hA, if_pos hB, if_pos hfn]
  · intro layer rf entries now hmt hfn
    have hA : ¬(layer.mediaType = Car.mediaTypeOCIImageLayer ∨
        layer.mediaType = Car.mediaTypeDockerImageLayer) := by
      rw [hmt]; decide
    have hB : layer.mediaType = Car.mediaTypeWasmImageLayer ∨
        layer.mediaType = Car.mediaTypeWasmImageConfig := Or.inl hmt
    simp only [Car.readFilesystemLayer, if_neg hA, if_pos hB, if_neg hfn]
  · intro layer rf entries now h1 h2 h3 h4
    have hA : ¬(layer.mediaType = Car.mediaTypeOCIImageLayer ∨
        layer.mediaType = Car.mediaTypeDockerImageLayer) := by
      rintro (h | h) <;> contradiction
    have hB : ¬(layer.mediaType = Car.mediaTypeWasmImageLayer ∨
        layer.mediaType = Car.mediaTypeWasmImageConfig) := by
      rintro (h | h) <;> contradiction
    simp only [Car.readFilesystemLayer, if_neg hA, if_neg hB]

/-- C9 witness: a Wasm layer without a filename, the same layer with
filename "envoy.wasm" under an error-free callback, and a layer with an
unrecognized media type. -/
theorem wasm_layer_read_witness :
    Car.readFilesystemLayer
        ⟨"u/blobs/sha256:w", Car.mediaTypeWasmImageLayer, 11, "created", ""⟩
        (fun _ => none) [] 99 = ([], some "missing filename") ∧
    Car.readFilesystemLayer
        ⟨"u/blobs/sha256:w", Car.mediaTypeWasmImageLayer, 11, "created", "envoy.wasm"⟩
        (fun _ => none) [] 99 =
      ([⟨"envoy.wasm", 11, 0o644, 99⟩], none) ∧
    Car.readFilesystemLayer
        ⟨"u/blobs/sha256:x", "application/vnd.example.unknown", 3, "created", "f"⟩
        (fun _ => none) [] 99 =
      ([], some ("unexpected media type: " ++ "application/vnd.example.unknown")) :=
  ⟨wasm_layer_read.1
     ⟨"u/blobs/sha256:w", Car.mediaTypeWasmImageLayer, 11, "created", ""⟩
     (fun _ => none) [] 99 rfl rfl,
   wasm_layer_read.2.1
     ⟨"u/blobs/sha256:w", Car.mediaTypeWasmImageLayer, 11, "created", "envoy.wasm"⟩
     (fun _ => none) [] 99 rfl (by decide),
   wasm_layer_read.2.2
     ⟨"u/blobs/sha256:x", "application/vnd.example.unknown", 3, "created", "f"⟩
     (fun _ => none) [] 99 (by decide) (by decide) (by decide) (by decide)⟩

/-- C5: StillMatching returns true unless fast_read is on, the pattern
list is non-empty, and every pattern has been satisfied; when it returns
false after a layer, the driver reads no further layers; and the run
errs with "<joined patterns> not found in layer" exactly when patterns
remain unsatisfied at the end. -/
theorem still_matching_and_unmatched_error :
    (∀ st : Car.PatternState,
        Car.stillMatching st = false ↔
          st.fastRead = true ∧ st.patterns ≠ [] ∧ ∀ pb ∈ st.patterns, pb.2 = true) ∧
    (∀ (glob : String → String → Bool) (st : Car.PatternState)
        (layer : List Car.TarHeader) (rest : List (List Car.TarHeader)),
        Car.stillMatching (Car.scanLayer glob st layer) = false →
        Car.doLoop glob st (layer :: rest) = (Car.scanLayer glob st layer, 1)) ∧
    (∀ (glob : String → String → Bool) (pats : List String) (fr : Bool)
        (layers : List (List Car.TarHeader)),
        ((Car.doRun glob pats fr layers).1 = none ↔
          Car.unmatchedPatterns
            (Car.doLoop glob (Car.newPatternState pats fr) layers).1 = []) ∧
        (Car.unmatchedPatterns
            (Car.doLoop glob (Car.newPatternState pats fr) layers).1 ≠ [] →
          (Car.doRun glob pats fr layers).1 =
            some (String.intercalate ", "
                (Car.unmatchedPatterns
                  (Car.doLoop glob (Car.newPatternState pats fr) layers).1) ++
              " not found in layer"))) := by
  refine ⟨?_, ?_, ?_⟩
  · intro st
    have hun : Car.unmatchedPatterns st = [] ↔ ∀ pb ∈ st.patterns, pb.2 = true := by
      simp [Car.unmatchedPatterns, List.map_eq_nil_iff, List.filter_eq_nil_iff]
    constructor
    · intro h
      have hfr : st.fastRead = true := by
        revert h
        unfold Car.stillMatching
        cases st.fastRead <;> simp
      have hemp : st.patterns.isEmpty = false := by
        revert h
        unfold Car.stillMatching
        cases st.patterns.isEmpty <;> simp
      have hunm : (Car.unmatchedPatterns st).isEmpty = true := by
        revert h
        unfold Car.stillMatching
        cases (Car.unmatchedPatterns st).isEmpty <;> simp
      refine ⟨hfr, ?_, hun.mp (List.isEmpty_iff.mp hunm)⟩
      intro hnil
      rw [hnil] at hemp
      simp at hemp
    · rintro ⟨h1, h2, h3⟩
      have h4 : Car.unmatchedPatterns st = [] := hun.mpr h3
      have h5 : st.patterns.isEmpty = false := by simp [List.isEmpty_iff, h2]
      simp [Car.stillMatching, h1, h4, h5]
  · intro glob st layer rest h
    simp [Car.doLoop, h]
  · intro glob pats fr layers
    constructor
    · by_cases h : Car.unmatchedPatterns
          (Car.doLoop glob (Car.newPatternState pats fr) layers).1 = []
      · simp [Car.doRun, h]
      · have h5 : (Car.unmatchedPatterns
            (Car.doLoop glob (Car.newPatternState pats fr) layers).1).isEmpty = false := by
          simp [List.isEmpty_iff, h]
        simp [Car.doRun, h5, h]
    · intro h
      have h5 : (Car.unmatchedPatterns
          (Car.doLoop glob (Car.newPatternState pats fr) layers).1).isEmpty = false := by
        simp [List.isEmpty_iff, h]
      simp [Car.doRun, h5]

/-- C5 witness: with fast_read and the single pattern satisfied by the
first layer, the driver stops after one layer; a never-matching pattern
makes the run fail with "etc/hosts not found in layer". The glob
parameter is instantiated with string equality. -/
theorem still_matching_and_unmatched_error_witness :
    Car.stillMatching (⟨[("a", true)], true⟩ : Car.PatternState) = false ∧
    Car.stillMatching
        (Car.scanLayer (fun p n => p == n)
          (Car.newPatternState ["usr/bin/car"] true)
          [⟨'0', "usr/bin/car", 3, 420, 1⟩]) = false ∧
    Car.doLoop (fun p n => p == n) (Car.newPatternState ["usr/bin/car"] true)
        [[⟨'0', "usr/bin/car", 3, 420, 1⟩], [⟨'0', "etc/hosts", 1, 420, 1⟩]] =
      (Car.scanLayer (fun p n => p == n) (Car.newPatternState ["usr/bin/car"] true)
         [⟨'0', "usr/bin/car", 3, 420, 1⟩], 1) ∧
    Car.unmatchedPatterns
        (Car.doLoop (fun p n => p == n) (Car.newPatternState ["etc/hosts"] false)
          [[⟨'0', "usr/bin/car", 3, 420, 1⟩]]).1 ≠ [] ∧
    (Car.doRun (fun p n => p == n) ["etc/hosts"] false
        [[⟨'0', "usr/bin/car", 3, 420, 1⟩]]).1 =
      some (String.intercalate ", "
          (Car.unmatchedPatterns
            (Car.doLoop (fun p n => p == n) (Car.newPatternState ["etc/hosts"] false)
              [[⟨'0', "usr/bin/car", 3, 420, 1⟩]]).1) ++
        " not found in layer") ∧
    String.intercalate ", "
        (Car.unmatchedPatterns
          (Car.doLoop (fun p n => p == n) (Car.newPatternState ["etc/hosts"] false)
            [[⟨'0', "usr/bin/car", 3, 420, 1⟩]]).1) ++
      " not found in layer" = "etc/hosts not found in layer" :=
  ⟨(still_matching_and_unmatched_error.1 ⟨[("a", true)], true⟩).mpr
     ⟨rfl, by decide, by decide⟩,
   by decide,
   still_matching_and_unmatched_error.2.1 (fun p n => p == n)
     (Car.newPatternState ["usr/bin/car"] true)
     [⟨'0', "usr/bin/car", 3, 420, 1⟩] [[⟨'0', "etc/hosts", 1, 420, 1⟩]] (by decide),
   by decide,
   (still_matching_and_unmatched_error.2.2 (fun p n => p == n) ["etc/hosts"] false
      [[⟨'0', "usr/bin/car", 3, 420, 1⟩]]).2 (by decide),
   by decide⟩
